import Mathlib

/-!
Shallow embedding of `shipping.py` (adscraper): spreadsheet export with
hyperlink resolution, last-7-days zip archiver, SMTP notifier and git
publisher.

Filesystem paths are modelled as Windows-style strings (forward or backward
slashes, optional drive such as `C:`), which is the platform the module's
own documentation targets; `os.path.relpath` raising `ValueError` for paths
on different drives is modelled by an `Option` result.  Every Python string
helper used by the module (`str.split`, `str.replace`, `str.rstrip`,
`int(...)`, `datetime.strptime("%Y-%m-%d")`) is embedded as an executable
Lean function on `List Char` so that concrete runs reduce in the kernel.
-/

set_option autoImplicit false

namespace Shipping

/-- The characters of a string, via the underlying `List Char`. -/
def lchars (s : String) : List Char := s.data

/-- Rebuild a string from characters. -/
def strOf (l : List Char) : String := String.mk l

/-- `p` is a leading segment of `s` (character-wise). -/
def isPre : List Char → List Char → Bool
  | [], _ => true
  | _ :: _, [] => false
  | a :: ps, b :: ss => a = b && isPre ps ss

/-- Worker for `splitOnStr`, with explicit fuel (each step consumes at
least one character, so `length + 1` fuel never runs out). -/
def splitGo (sep : List Char) : Nat → List Char → List Char → List (List Char)
  | 0, cur, s => [cur.reverse ++ s]
  | Nat.succ fuel, cur, s =>
    match s with
    | [] => [cur.reverse]
    | c :: rest =>
      if isPre sep s then cur.reverse :: splitGo sep fuel [] (s.drop sep.length)
      else splitGo sep fuel (c :: cur) rest

/-- Python `s.split(sep)` for a nonempty separator (also the behaviour of
`str.split` used at `public_base.split("/blob/")`). -/
def splitOnStr (s sep : String) : List String :=
  if sep = "" then [s]
  else (splitGo sep.data (s.data.length + 1) [] s.data).map strOf

/-- Join a list of strings with a separator. -/
def joinWith (sep : String) : List String → String
  | [] => ""
  | [x] => x
  | x :: y :: xs => x ++ sep ++ joinWith sep (y :: xs)

/-- Python `s.replace(pat, to)` (all non-overlapping occurrences, left to
right), used for the `github.com -> raw.githubusercontent.com` rewrite. -/
def pyReplace (s pat t : String) : String :=
  if pat = "" then s else joinWith t (splitOnStr s pat)

/-- Python `pat in s` for strings. -/
def containsSub (s pat : String) : Bool :=
  (splitOnStr s pat).length ≥ 2

/-- Python `s.rstrip("/")`. -/
def rstripSlash (s : String) : String :=
  strOf (s.data.reverse.dropWhile (fun c => c = '/')).reverse

/-- Python `s.lstrip("/")`. -/
def lstripSlash (s : String) : String :=
  strOf (s.data.dropWhile (fun c => c = '/'))

/-- Python `s.strip()` (whitespace on both ends). -/
def pyStrip (s : String) : String :=
  strOf ((s.data.dropWhile Char.isWhitespace).reverse.dropWhile Char.isWhitespace).reverse

/-- ASCII lower-casing, as `ntpath.normcase` uses for path comparison. -/
def toLowerStr (s : String) : String := strOf (s.data.map Char.toLower)

/-- `s` starts with `p`. -/
def startsW (s p : String) : Bool := isPre p.data s.data

/-- Replace every backslash by a forward slash (the module itself does this
with `.replace("\\", "/")`; `ntpath` accepts both separators). -/
def normSlashes (s : String) : String :=
  strOf (s.data.map (fun c => if c = '\\' then '/' else c))

/-- `ntpath.splitdrive`: a two-character `X:` drive is split off. -/
def splitDrive (s : String) : String × String :=
  match s.data with
  | a :: b :: rest => if b = ':' then (strOf [a, b], strOf rest) else ("", s)
  | _ => ("", s)

/-- `ntpath.normpath` segment processing on an absolute tail: drop empty
and `.` segments, let `..` pop the previous segment. -/
def normSegs (segs : List String) : List String :=
  segs.foldl
    (fun acc seg =>
      if seg = "" ∨ seg = "." then acc
      else if seg = ".." then acc.dropLast
      else acc ++ [seg]) []

/-- `os.path.abspath` without normalisation: anchor `p` at `cwd` (drive and
directory) unless it is already absolute. -/
def absW (cwd p : String) : String :=
  let pn := normSlashes p
  let cn := normSlashes cwd
  let dp := (splitDrive pn).1
  let rp := (splitDrive pn).2
  let dc := (splitDrive cn).1
  let rc := (splitDrive cn).2
  if dp ≠ "" then (if startsW rp "/" then pn else dp ++ rc ++ "/" ++ rp)
  else if startsW rp "/" then dc ++ rp
  else dc ++ rc ++ "/" ++ rp

/-- `os.path.abspath`: anchor at `cwd` and normalise segments. -/
def abspathW (cwd p : String) : String :=
  let a := absW cwd p
  let d := (splitDrive a).1
  let r := (splitDrive a).2
  d ++ "/" ++ joinWith "/" (normSegs (splitOnStr r "/"))

/-- Length of the common (case-insensitively equal) leading run of two
segment lists, as `ntpath.relpath` computes via `normcase`. -/
def commonLen : List String → List String → Nat
  | a :: as, b :: bs => if toLowerStr a = toLowerStr b then commonLen as bs + 1 else 0
  | _, _ => 0

/-- `os.path.relpath(path, start)` on Windows: `none` models the
`ValueError` raised when the two paths are on different drives (or when
`path` is empty). -/
def relpathW (cwd path start : String) : Option String :=
  if path = "" then none
  else
    let p := abspathW cwd path
    let st := abspathW cwd start
    if toLowerStr (splitDrive p).1 ≠ toLowerStr (splitDrive st).1 then none
    else
      let ps := normSegs (splitOnStr (splitDrive p).2 "/")
      let ss := normSegs (splitOnStr (splitDrive st).2 "/")
      let i := commonLen ss ps
      let rel := List.replicate (ss.length - i) ".." ++ ps.drop i
      some (if rel = [] then "." else joinWith "/" rel)

/-- `ntpath.basename`: the part after the last separator. -/
def basenameW (s : String) : String :=
  (splitOnStr (splitDrive (normSlashes s)).2 "/").getLastD ""

/-- `ntpath.dirname`: drive plus the part before the last separator (the
root `/` is kept when it is all that remains). -/
def dirnameW (s : String) : String :=
  let n := normSlashes s
  let d := (splitDrive n).1
  let r := (splitDrive n).2
  let parts := splitOnStr r "/"
  match parts with
  | [_] => d
  | _ =>
    let dd := joinWith "/" parts.dropLast
    d ++ (if dd = "" ∧ startsW r "/" then "/" else dd)

/-! ### Environment configuration

The module reads its configuration with `os.getenv`; a `none` field models
an unset environment variable, `some v` a variable set to `v`. -/

structure Cfg where
  OUTPUT_ROOT : Option String := none
  PUBLIC_BASE_URL : Option String := none
  RAW_BASE_URL : Option String := none
  SMTP_HOST : Option String := none
  SMTP_PORT : Option String := none
  SMTP_USER : Option String := none
  SMTP_PASS : Option String := none
  MAIL_FROM : Option String := none
  MAIL_TO : Option String := none
  GIT_REMOTE_NAME : Option String := none
  GIT_BRANCH : Option String := none
deriving DecidableEq, Repr

/-! ### Spreadsheet export (`build_xlsx_from_csv`) -/

/-- `_guess_output_root` (shipping.py:37-45): explicit `OUTPUT_ROOT` env
value (stripped, made absolute) if nonempty, else `here/banner_screenshots`
where `here` is the resolved directory of the module file. -/
def guessOutputRoot (cwd here : String) (cfg : Cfg) : String :=
  let envRoot := pyStrip (cfg.OUTPUT_ROOT.getD "")
  if envRoot ≠ "" then abspathW cwd envRoot else here ++ "/banner_screenshots"

/-- `_to_rel` (shipping.py:47-52): `os.path.relpath` with separators
normalised to `/`, returning `""` when `relpath` raises. -/
def toRel (cwd path_str output_root : String) : String :=
  match relpathW cwd path_str output_root with
  | some rel => rel
  | none => ""

/-- `_public_url_from_rel` (shipping.py:54-58); defined by the module but
not called by `build_xlsx_from_csv`. -/
def publicUrlFromRel (cfg : Cfg) (rel_path : String) : String :=
  let base := rstripSlash (cfg.PUBLIC_BASE_URL.getD "")
  if base = "" ∨ rel_path = "" then "" else base ++ "/" ++ lstripSlash rel_path

/-- `_file_url` (shipping.py:60-63): `Path(local_path).resolve()` with
separators normalised, behind a `file:///` scheme. -/
def fileUrl (cwd local_path : String) : String :=
  "file:///" ++ abspathW cwd local_path

/-- shipping.py:93-103: when `RAW_BASE_URL` is absent but the public base
contains `/blob/`, derive the raw base by substituting the host and
dropping the `/blob/` segment; otherwise keep `raw_base` as is. -/
def deriveRawBase (raw_base public_base : String) : String :=
  if raw_base = "" ∧ public_base ≠ "" ∧ containsSub public_base "/blob/" then
    let parts := splitOnStr public_base "/blob/"
    let left := parts.headD ""
    let branch := parts.getD 1 ""
    pyReplace left "https://github.com/" "https://raw.githubusercontent.com/" ++ "/" ++ branch
  else raw_base

/-- A ledger row as `csv.DictReader` yields it: key/value pairs;
`row.get(k, "")` is lookup with default `""`. -/
def rowGet : List (String × String) → String → String
  | [], _ => ""
  | (k, v) :: rest, key => if k = key then v else rowGet rest key

/-- `fieldnames.index(name)`, as an `Option` (0-based). -/
def idxOf : List String → String → Option Nat
  | [], _ => none
  | x :: xs, n => if x = n then some 0 else (idxOf xs n).map (· + 1)

/-- shipping.py:107: the fixed priority list of clickable columns. -/
def clickableCols : List String := ["example_path", "image_path"]

/-- shipping.py:114-121: find the first clickable column present in the
header; the index is 1-based as in `openpyxl`. -/
def findClickFrom : List String → List String → Option (Nat × String)
  | [], _ => none
  | n :: rest, fns =>
    match idxOf fns n with
    | some i => some (i + 1, n)
    | none => findClickFrom rest fns

/-- The `click_col_idx`/`click_col_name` computation of the export. -/
def findClick (fns : List String) : Option (Nat × String) :=
  findClickFrom clickableCols fns

/-- One worksheet cell: value, optional hyperlink target, optional style. -/
structure Cell where
  value : String
  hyperlink : Option String := none
  style : Option String := none
deriving DecidableEq, Repr

/-- A cell holding a plain value, as `ws.append` writes it. -/
def plainCell (v : String) : Cell := { value := v }

/-- The rewritten clickable cell (shipping.py:157-162): the display text is
always written; hyperlink and the `Hyperlink` style only when the resolved
hyperlink is nonempty. -/
def mkClickCell (display_text hyperlink : String) : Cell :=
  { value := display_text
    hyperlink := if hyperlink = "" then none else some hyperlink
    style := if hyperlink = "" then none else some "Hyperlink" }

/-- The single worksheet of the produced workbook. -/
structure Sheet where
  title : String
  rows : List (List Cell)
deriving DecidableEq, Repr

/-- The parsed ledger file (`csv.DictReader`): header and data rows. -/
structure Ledger where
  fieldnames : List String
  rows : List (List (String × String))
deriving DecidableEq, Repr

/-- shipping.py:134-144: the display text of the clickable cell for a
nonempty path: the relative path when `os.path.relpath` succeeds, else the
base name. -/
def displayFor (cwd output_root original_path : String) : String :=
  if toRel cwd original_path output_root = "" then basenameW original_path
  else toRel cwd original_path output_root

/-- shipping.py:146-155: hyperlink fallback priority — raw base, then
public base (both require a computed relative path), then `file://`. -/
def linkFor (cwd raw_base public_base original_path rel : String) : String :=
  if raw_base ≠ "" ∧ rel ≠ "" then rstripSlash raw_base ++ "/" ++ lstripSlash rel
  else if public_base ≠ "" ∧ rel ≠ "" then rstripSlash public_base ++ "/" ++ lstripSlash rel
  else fileUrl cwd original_path

/-- shipping.py:123-162: the cells written for one data row: all values
verbatim, then — when a clickable column exists — that cell rewritten with
the display text and resolved hyperlink (empty paths get display `""` and
no hyperlink). -/
def processRow (cwd output_root raw_base public_base : String)
    (click : Option (Nat × String)) (fns : List String)
    (row : List (String × String)) : List Cell :=
  let values := fns.map (fun k => plainCell (rowGet row k))
  match click with
  | none => values
  | some (idx, name) =>
    let p := rowGet row name
    values.set (idx - 1)
      (if p = "" then mkClickCell p ""
       else mkClickCell (displayFor cwd output_root p)
         (linkFor cwd raw_base public_base p (toRel cwd p output_root)))

/-- `build_xlsx_from_csv` (shipping.py:65-169).  `cwd` is the process
working directory, `here` the resolved directory of the module file,
`csvFile` the parsed ledger (`none` when the file does not exist).  The
`os.makedirs(os.path.dirname(xlsx_path), exist_ok=True)` call raises
`FileNotFoundError` when the dirname is empty; this happens before the
ledger existence check, hence before anything is read. -/
def build_xlsx_from_csv (cwd here : String) (cfg : Cfg)
    (csvFile : Option Ledger) (xlsx_path : String) : Except String Sheet :=
  if dirnameW xlsx_path = "" then
    Except.error "FileNotFoundError: os.makedirs with empty dirname"
  else
    match csvFile with
    | none => Except.ok { title := "banners", rows := [] }
    | some L =>
      let output_root := guessOutputRoot cwd here cfg
      let public_base := rstripSlash (cfg.PUBLIC_BASE_URL.getD "")
      let raw_base := deriveRawBase (rstripSlash (cfg.RAW_BASE_URL.getD "")) public_base
      let click := findClick L.fieldnames
      Except.ok
        { title := "banners"
          rows := L.fieldnames.map plainCell ::
            L.rows.map (processRow cwd output_root raw_base public_base click L.fieldnames) }

/-- The cell of `sheet` at row `r`, column `c` (0-based). -/
def cellAt (sheet : Sheet) (r c : Nat) : Option Cell :=
  (sheet.rows.get? r).bind (fun row => row.get? c)

/-! ### Dates (`datetime.strptime("%Y-%m-%d")` and date arithmetic) -/

/-- Numeric value of a digit string. -/
def natOfDigits (l : List Char) : Nat :=
  l.foldl (fun acc c => acc * 10 + (c.toNat - 48)) 0

/-- Gregorian leap year. -/
def isLeap (y : Nat) : Bool :=
  (y % 4 = 0 && y % 100 ≠ 0) || y % 400 = 0

/-- Days in a month, as `datetime.date` validates. -/
def daysInMonth (y m : Nat) : Nat :=
  if m = 2 then (if isLeap y then 29 else 28)
  else if m = 4 ∨ m = 6 ∨ m = 9 ∨ m = 11 then 30
  else 31

/-- `datetime.strptime(day, "%Y-%m-%d").date()` as an option: three dash
separated digit groups (year up to 4 digits, month and day up to 2) that
form a valid calendar date. -/
def parseDateYMD (s : String) : Option (Nat × Nat × Nat) :=
  match splitOnStr s "-" with
  | [ys, ms, ds] =>
    if ys.data ≠ [] ∧ ms.data ≠ [] ∧ ds.data ≠ [] ∧
        ys.data.all Char.isDigit ∧ ms.data.all Char.isDigit ∧ ds.data.all Char.isDigit ∧
        ys.data.length ≤ 4 ∧ ms.data.length ≤ 2 ∧ ds.data.length ≤ 2 then
      let y := natOfDigits ys.data
      let m := natOfDigits ms.data
      let d := natOfDigits ds.data
      if 1 ≤ y ∧ 1 ≤ m ∧ m ≤ 12 ∧ 1 ≤ d ∧ d ≤ daysInMonth y m then some (y, m, d)
      else none
    else none
  | _ => none

/-- Day ordinal of a calendar date (standard civil-calendar formula with a
March-based year); differences of ordinals are differences in days, which
is all `timedelta` comparison needs. -/
def dateOrd : Nat × Nat × Nat → Nat
  | (y, m, d) =>
    let y' := if m ≤ 2 then y - 1 else y
    let m' := if m ≤ 2 then m + 9 else m - 3
    365 * y' + y' / 4 + y' / 400 + (153 * m' + 2) / 5 + d - 1 - y' / 100

/-! ### Archiver (`zip_last_7_days`) -/

/-- Concatenating map (explicit, structural). -/
def catMap {α β : Type} (f : α → List β) : List α → List β
  | [] => []
  | x :: xs => f x ++ catMap f xs

/-- First-match association lookup (`os.path.isdir` + directory access). -/
def fsLookup {α : Type} : List (String × α) → String → Option α
  | [], _ => none
  | (k, v) :: rest, key => if k = key then some v else fsLookup rest key

/-- The fixed site list of shipping.py:176. -/
def zipSites : List String := ["gogo.mn", "ikon.mn", "news.mn"]

/-- The screenshot tree: per site directory, the date-named subfolders in
`os.listdir` order, each carrying the files `os.walk` yields below it
(paths relative to the subfolder, `/`-separated as `zipfile` stores
them). -/
abbrev ZipFS : Type := List (String × List (String × List String))

/-- Archive entries contributed by one date subfolder of one site. -/
def zipDayEntries (today : Nat) (site day : String) (files : List String) : List String :=
  match parseDateYMD day with
  | none => []
  | some d =>
    if today - 7 ≤ dateOrd d then files.map (fun f => site ++ "/" ++ day ++ "/" ++ f)
    else []

/-- `zip_last_7_days` (shipping.py:172-193).  `today` is the ordinal of
`datetime.now().date()`; the cutoff is `today - 7` and a folder is
included when its parsed date `d` satisfies `d >= cutoff`.  The result is
the list of archive entry names; `os.makedirs` on an empty dirname raises
first, before any directory is read. -/
def zip_last_7_days (today : Nat) (fs : ZipFS) (out_zip_path : String) :
    Except String (List String) :=
  if dirnameW out_zip_path = "" then
    Except.error "FileNotFoundError: os.makedirs with empty dirname"
  else
    Except.ok (catMap
      (fun site =>
        match fsLookup fs site with
        | none => []
        | some days => catMap (fun dayDir => zipDayEntries today site dayDir.1 dayDir.2) days)
      zipSites)

/-! ### Notifier (`send_email`) -/

/-- Continuation of `int(...)` after the first digit: digits, with single
underscores allowed between digits (CPython's rule). -/
def pyDigitsGo : Nat → List Char → Option Nat
  | acc, [] => some acc
  | acc, '_' :: c :: rest =>
    if c.isDigit then pyDigitsGo (acc * 10 + (c.toNat - 48)) rest else none
  | acc, c :: rest =>
    if c.isDigit then pyDigitsGo (acc * 10 + (c.toNat - 48)) rest else none

/-- An unsigned run of digits for `int(...)`: must start with a digit. -/
def pyDigits : List Char → Option Nat
  | c :: rest => if c.isDigit then pyDigitsGo (c.toNat - 48) rest else none
  | [] => none

/-- Python `int(s)` for a decimal string: optional surrounding whitespace,
optional sign, then digits; `none` models the `ValueError`. -/
def pyInt (s : String) : Option Int :=
  let l := (s.data.dropWhile Char.isWhitespace).reverse.dropWhile Char.isWhitespace
  match l.reverse with
  | '+' :: rest => (pyDigits rest).map Int.ofNat
  | '-' :: rest => (pyDigits rest).map (fun n => -(n : Int))
  | l' => (pyDigits l').map Int.ofNat

/-- shipping.py:209: the recipient list parsed from `MAIL_TO`. -/
def parseMailTo (s : String) : List String :=
  ((splitOnStr s ",").map pyStrip).filter (fun x => x ≠ "")

/-- The single SMTP network interaction `send_email` performs when the
required configuration is present. -/
structure MailCall where
  host : String
  port : Int
  user : String
  sender : String
  recipients : List String
  subject : String
  body : String
  attached : List String
deriving DecidableEq, Repr

/-- Outcome of `send_email` when it returns: either the warning-and-skip
path (`[WARN] Email not sent`) or one sent message. -/
inductive MailOutcome where
  | warnedSkip
  | sent (call : MailCall)
deriving DecidableEq, Repr

/-- `send_email` (shipping.py:203-232).  `fsExists` models
`os.path.exists` for the attachment filter.  `int(os.getenv("SMTP_PORT",
"587"))` is evaluated before the configuration guard, so a set but
unparsable `SMTP_PORT` raises (`Except.error`) even when everything else
is absent.  The guard requires host, user, password and a nonempty
recipient list — the port is not part of it. -/
def send_email (cfg : Cfg) (fsExists : String → Bool)
    (subject body : String) (attachments : List String) :
    Except String MailOutcome :=
  let smtp_host := cfg.SMTP_HOST.getD ""
  match pyInt (cfg.SMTP_PORT.getD "587") with
  | none => Except.error "ValueError: invalid literal for int() with base 10"
  | some port =>
    let smtp_user := cfg.SMTP_USER.getD ""
    let smtp_pass := cfg.SMTP_PASS.getD ""
    let mail_from := cfg.MAIL_FROM.getD smtp_user
    let mail_to := parseMailTo (cfg.MAIL_TO.getD "")
    if smtp_host ≠ "" ∧ smtp_user ≠ "" ∧ smtp_pass ≠ "" ∧ mail_to ≠ [] then
      Except.ok (MailOutcome.sent
        { host := smtp_host, port := port, user := smtp_user, sender := mail_from
          recipients := mail_to, subject := subject, body := body
          attached := attachments.filter fsExists })
    else Except.ok MailOutcome.warnedSkip

/-! ### Publisher (`git_commit_and_push`) -/

/-- `subprocess.run(cmd, cwd=repo_dir, check=check)`: with `check=False`
the call never raises regardless of the exit status; the result records
the attempted invocation. -/
def subprocess_run (repo_dir : String) (check : Bool) (exitcode : Int)
    (cmd : List String) : Except String (List (String × List String)) :=
  if check && exitcode ≠ 0 then Except.error "CalledProcessError"
  else Except.ok [(repo_dir, cmd)]

/-- `git_commit_and_push` (shipping.py:234-246): stage, commit, push, in
that order, each via `subprocess.run(..., check=False)`.  `exits` is an
oracle giving the exit status of the i-th git command. -/
def git_commit_and_push (cfg : Cfg) (exits : Nat → Int)
    (repo_dir message : String) : Except String (List (String × List String)) := do
  let remote := cfg.GIT_REMOTE_NAME.getD "origin"
  let branch := cfg.GIT_BRANCH.getD "main"
  let r1 ← subprocess_run repo_dir false (exits 0) ["git", "add", "-A"]
  let r2 ← subprocess_run repo_dir false (exits 1) ["git", "commit", "-m", message]
  let r3 ← subprocess_run repo_dir false (exits 2) ["git", "push", remote, branch]
  return r1 ++ r2 ++ r3

/-- The cell of the workbook `build_xlsx_from_csv` produces, at row `r`
and column `c` (0-based), when the export succeeds. -/
def buildCellAt (cwd here : String) (cfg : Cfg) (csvFile : Option Ledger)
    (xlsx_path : String) (r c : Nat) : Option Cell :=
  match build_xlsx_from_csv cwd here cfg csvFile xlsx_path with
  | Except.ok sheet => cellAt sheet r c
  | Except.error _ => none

/-! ### Sanity checks of the embedded Python semantics -/

example : splitOnStr "a/blob/b" "/blob/" = ["a", "b"] := by decide
example : splitOnStr "bb" "b" = ["", "", ""] := by decide
example : pyReplace "https://github.com/u/r" "https://github.com/"
    "https://raw.githubusercontent.com/" = "https://raw.githubusercontent.com/u/r" := by decide
example : rstripSlash "https://x//" = "https://x" := by decide
example : relpathW "C:/" "C:/shots/a/f.png" "C:/shots" = some "a/f.png" := by decide
example : relpathW "C:/" "C:/other/f.png" "C:/shots" = some "../other/f.png" := by decide
example : relpathW "C:/" "D:/pics/f.png" "C:/shots" = none := by decide
example : basenameW "C:/other/f.png" = "f.png" := by decide
example : dirnameW "out.xlsx" = "" := by decide
example : dirnameW "C:/out/wb.xlsx" = "C:/out" := by decide
example : parseDateYMD "2025-09-18" = some (2025, 9, 18) := by decide
example : parseDateYMD "latest" = none := by decide
example : parseDateYMD "2025-02-30" = none := by decide
example : dateOrd (2025, 9, 19) - dateOrd (2025, 9, 12) = 7 := by decide
example : dateOrd (2024, 3, 1) - dateOrd (2024, 2, 28) = 2 := by decide
example : dateOrd (2025, 3, 1) - dateOrd (2025, 2, 28) = 1 := by decide
example : dateOrd (2025, 1, 1) - dateOrd (2024, 12, 31) = 1 := by decide
example : pyInt "587" = some 587 := by decide
example : pyInt " -42 " = some (-42) := by decide
example : pyInt "" = none := by decide
example : pyInt "5x" = none := by decide
example : pyInt "5_0" = some 50 := by decide
example : pyInt "_5" = none := by decide
example : parseMailTo " a@b.c , ,d@e.f" = ["a@b.c", "d@e.f"] := by decide
example : deriveRawBase "" "https://github.com/u/r/blob/main"
    = "https://raw.githubusercontent.com/u/r/main" := by decide

/-! ### Helper lemmas -/

theorem strDataAppend (a b : String) : (a ++ b).data = a.data ++ b.data := by
  cases a
  cases b
  rfl

theorem midSlashNe (a b : String) : a ++ "/" ++ b ≠ "" := by
  intro h
  have h2 := congrArg String.data h
  rw [strDataAppend, strDataAppend] at h2
  simp at h2

theorem fileUrlNe (cwd p : String) : fileUrl cwd p ≠ "" := by
  intro h
  have h2 := congrArg String.data (h ▸ rfl : fileUrl cwd p = "")
  rw [fileUrl, strDataAppend] at h2
  simp at h2

theorem listSetGetEq {α : Type} :
    ∀ (l : List α) (i : Nat) (a : α), i < l.length → (l.set i a).get? i = some a
  | [], i, _, h => absurd h (by simp)
  | _ :: _, 0, _, _ => rfl
  | _ :: xs, i + 1, a, h => listSetGetEq xs i a (Nat.lt_of_succ_lt_succ h)

theorem listSetGetNe {α : Type} :
    ∀ (l : List α) (i j : Nat) (a : α), i ≠ j → (l.set i a).get? j = l.get? j
  | [], _, _, _, _ => rfl
  | _ :: _, 0, 0, _, h => absurd rfl h
  | _ :: _, 0, _ + 1, _, _ => rfl
  | _ :: _, _ + 1, 0, _, _ => rfl
  | _ :: xs, i + 1, j + 1, a, h => listSetGetNe xs i j a (fun e => h (by rw [e]))

theorem listGetMap {α β : Type} (f : α → β) :
    ∀ (l : List α) (i : Nat), (l.map f).get? i = (l.get? i).map f
  | [], _ => rfl
  | _ :: _, 0 => rfl
  | _ :: xs, i + 1 => listGetMap f xs i

theorem listGetNone {α : Type} :
    ∀ (l : List α) (i : Nat), l.length ≤ i → l.get? i = none
  | [], _, _ => rfl
  | _ :: _, 0, h => absurd h (by simp)
  | _ :: xs, i + 1, h => listGetNone xs i (Nat.le_of_succ_le_succ h)

theorem idxOf_lt : ∀ (l : List String) (n : String) (i : Nat),
    idxOf l n = some i → i < l.length := by
  intro l
  induction l with
  | nil => intro n i h; simp [idxOf] at h
  | cons x xs ih =>
    intro n i h
    simp only [List.length_cons]
    by_cases hx : x = n
    · simp [idxOf, hx] at h
      omega
    · simp [idxOf, hx] at h
      obtain ⟨j, hj, rfl⟩ := h
      have := ih n j hj
      omega

theorem findClick_spec (fns : List String) (idx : Nat) (name : String)
    (h : findClick fns = some (idx, name)) :
    ∃ i, idxOf fns name = some i ∧ idx = i + 1 := by
  rw [findClick, clickableCols, findClickFrom] at h
  cases h1 : idxOf fns "example_path" with
  | some i =>
    rw [h1] at h
    obtain ⟨rfl, rfl⟩ : idx = i + 1 ∧ name = "example_path" := by
      cases h
      exact ⟨rfl, rfl⟩
    exact ⟨i, h1, rfl⟩
  | none =>
    rw [h1, findClickFrom] at h
    cases h2 : idxOf fns "image_path" with
    | some i =>
      rw [h2] at h
      obtain ⟨rfl, rfl⟩ : idx = i + 1 ∧ name = "image_path" := by
        cases h
        exact ⟨rfl, rfl⟩
      exact ⟨i, h2, rfl⟩
    | none =>
      rw [h2, findClickFrom] at h
      cases h

theorem processRow_click (cwd root raw pub : String) (fns : List String)
    (idx : Nat) (name : String) (row : List (String × String)) (i : Nat)
    (hi : idxOf fns name = some i) (hidx : idx = i + 1)
    (hp : rowGet row name ≠ "") :
    (processRow cwd root raw pub (some (idx, name)) fns row).get? (idx - 1) =
      some (mkClickCell (displayFor cwd root (rowGet row name))
        (linkFor cwd raw pub (rowGet row name) (toRel cwd (rowGet row name) root))) := by
  subst hidx
  have hlen : i < (fns.map (fun k => plainCell (rowGet row k))).length := by
    rw [List.length_map]
    exact idxOf_lt fns name i hi
  simp only [processRow]
  rw [if_neg hp]
  simpa using listSetGetEq _ i _ hlen

theorem processRow_other (cwd root raw pub : String) (fns : List String)
    (idx : Nat) (name : String) (row : List (String × String)) (k : Nat)
    (hk : idx - 1 ≠ k) :
    (processRow cwd root raw pub (some (idx, name)) fns row).get? k =
      (fns.get? k).map (fun c => plainCell (rowGet row c)) := by
  simp only [processRow]
  rw [listSetGetNe _ _ _ _ hk, listGetMap]

theorem processRow_length (cwd root raw pub : String)
    (click : Option (Nat × String)) (fns : List String)
    (row : List (String × String)) :
    (processRow cwd root raw pub click fns row).length = fns.length := by
  cases click with
  | none => simp [processRow]
  | some c => cases c; simp [processRow]

theorem build_rows_eq (cwd here : String) (cfg : Cfg) (L : Ledger)
    (xlsx : String) (hout : dirnameW xlsx ≠ "") :
    build_xlsx_from_csv cwd here cfg (some L) xlsx = Except.ok
      { title := "banners"
        rows := L.fieldnames.map plainCell ::
          L.rows.map (processRow cwd (guessOutputRoot cwd here cfg)
            (deriveRawBase (rstripSlash (cfg.RAW_BASE_URL.getD ""))
              (rstripSlash (cfg.PUBLIC_BASE_URL.getD "")))
            (rstripSlash (cfg.PUBLIC_BASE_URL.getD ""))
            (findClick L.fieldnames) L.fieldnames) } := by
  simp only [build_xlsx_from_csv]
  rw [if_neg hout]

theorem zipSingle (today : Nat) (site day out : String) (files : List String)
    (d : Nat × Nat × Nat) (hout : dirnameW out ≠ "")
    (hsite : site ∈ zipSites) (hp : parseDateYMD day = some d) :
    zip_last_7_days today [(site, [(day, files)])] out = Except.ok
      (if today - 7 ≤ dateOrd d then
        files.map (fun f => site ++ "/" ++ day ++ "/" ++ f) else []) := by
  have hsite3 : site = "gogo.mn" ∨ site = "ikon.mn" ∨ site = "news.mn" := by
    simpa [zipSites] using hsite
  rcases hsite3 with rfl | rfl | rfl <;>
    simp +decide [zip_last_7_days, hout, catMap, fsLookup, zipDayEntries, hp]

/-! ### Claims -/

/-- Claim C4 (confirmed): with `RAW_BASE_URL` unset and `PUBLIC_BASE_URL =
https://github.com/u/r/blob/main`, the derived raw-content base equals
`https://raw.githubusercontent.com/u/r/main`, obtained by substituting the
host and removing the `/blob/` segment, and every row with a computed
nonempty relative path gets its hyperlink from that raw base. -/
theorem C4_theorem (cwd p rel : String) (hrel : rel ≠ "") :
    deriveRawBase "" (rstripSlash "https://github.com/u/r/blob/main") =
      "https://raw.githubusercontent.com/u/r/main" ∧
    linkFor cwd
      (deriveRawBase "" (rstripSlash "https://github.com/u/r/blob/main"))
      (rstripSlash "https://github.com/u/r/blob/main") p rel =
      "https://raw.githubusercontent.com/u/r/main" ++ "/" ++ lstripSlash rel := by
  have hD : deriveRawBase "" (rstripSlash "https://github.com/u/r/blob/main") =
      "https://raw.githubusercontent.com/u/r/main" := by decide
  refine ⟨hD, ?_⟩
  rw [hD]
  simp only [linkFor]
  rw [if_pos ⟨by decide, hrel⟩]
  rw [show rstripSlash "https://raw.githubusercontent.com/u/r/main" =
    "https://raw.githubusercontent.com/u/r/main" from by decide]

/-- Witness for C4_theorem at a concrete relative path. -/
theorem C4_witness :
    deriveRawBase "" (rstripSlash "https://github.com/u/r/blob/main") =
      "https://raw.githubusercontent.com/u/r/main" ∧
    linkFor "C:/"
      (deriveRawBase "" (rstripSlash "https://github.com/u/r/blob/main"))
      (rstripSlash "https://github.com/u/r/blob/main")
      "C:/shots/news.mn/f.png" "news.mn/f.png" =
      "https://raw.githubusercontent.com/u/r/main" ++ "/" ++
        lstripSlash "news.mn/f.png" :=
  C4_theorem "C:/" "C:/shots/news.mn/f.png" "news.mn/f.png" (by decide)

/-- Claim C5 (corrected): the last-7-days archiver includes every
subfolder whose parsed date is on or after `today - 7` — a folder dated
exactly `today - 7` contributes all its files, and one dated more than 7
days before today contributes nothing.  (The code imposes no upper bound:
see C5_counterexample.) -/
theorem C5_theorem (today : Nat) (site day out : String) (files : List String)
    (d : Nat × Nat × Nat) (hout : dirnameW out ≠ "") (hsite : site ∈ zipSites)
    (hp : parseDateYMD day = some d) :
    (today ≤ dateOrd d + 7 →
      zip_last_7_days today [(site, [(day, files)])] out =
        Except.ok (files.map (fun f => site ++ "/" ++ day ++ "/" ++ f))) ∧
    (dateOrd d + 7 < today →
      zip_last_7_days today [(site, [(day, files)])] out = Except.ok []) := by
  constructor
  · intro hin
    rw [zipSingle today site day out files d hout hsite hp, if_pos (by omega)]
  · intro hexcl
    rw [zipSingle today site day out files d hout hsite hp, if_neg (by omega)]

/-- Witness for C5_theorem: with today = 2025-09-19, a folder dated
2025-09-12 (exactly 7 days back) is included and one dated 2025-09-11
(8 days back) is excluded. -/
theorem C5_witness :
    (zip_last_7_days (dateOrd (2025, 9, 19))
        [("gogo.mn", [("2025-09-12", ["a.png"])])] "C:/out/z.zip" =
      Except.ok (["a.png"].map (fun f => "gogo.mn" ++ "/" ++ "2025-09-12" ++ "/" ++ f))) ∧
    (zip_last_7_days (dateOrd (2025, 9, 19))
        [("gogo.mn", [("2025-09-11", ["a.png"])])] "C:/out/z.zip" =
      Except.ok []) :=
  ⟨(C5_theorem (dateOrd (2025, 9, 19)) "gogo.mn" "2025-09-12" "C:/out/z.zip"
      ["a.png"] (2025, 9, 12) (by decide) (by decide) (by decide)).1 (by decide),
   (C5_theorem (dateOrd (2025, 9, 19)) "gogo.mn" "2025-09-11" "C:/out/z.zip"
      ["a.png"] (2025, 9, 11) (by decide) (by decide) (by decide)).2 (by decide)⟩

/-- Counterexample to claim C5 as stated: with today = 2025-09-19, the
subfolder dated 2025-09-27 lies outside the inclusive window
`[today - 7, today]` (its date is after today), yet it contributes an
archive entry — the code only checks `d >= cutoff`. -/
theorem C5_counterexample :
    zip_last_7_days (dateOrd (2025, 9, 19))
        [("gogo.mn", [("2025-09-27", ["x.png"])])] "C:/out/z.zip" =
      Except.ok ["gogo.mn/2025-09-27/x.png"] ∧
    ¬ dateOrd (2025, 9, 27) ≤ dateOrd (2025, 9, 19) :=
  ⟨rfl, by decide⟩

/-- Claim C6 (corrected): when the output path has a non-empty directory
component, a missing ledger file makes the export write an empty
single-sheet workbook (sheet `banners`, no rows) and return without
raising. -/
theorem C6_theorem (cwd here : String) (cfg : Cfg) (xlsx : String)
    (hout : dirnameW xlsx ≠ "") :
    build_xlsx_from_csv cwd here cfg none xlsx =
      Except.ok { title := "banners", rows := [] } := by
  simp only [build_xlsx_from_csv]
  rw [if_neg hout]

/-- Witness for C6_theorem at a concrete output path. -/
theorem C6_witness :
    build_xlsx_from_csv "C:/base" "C:/app" {} none "C:/out/wb.xlsx" =
      Except.ok { title := "banners", rows := [] } :=
  C6_theorem "C:/base" "C:/app" {} "C:/out/wb.xlsx" (by decide)

/-- Counterexample to claim C6 as stated: with a bare-filename output path
the export raises (`os.makedirs` on the empty dirname) even though the
ledger is missing, instead of writing an empty workbook and returning. -/
theorem C6_counterexample :
    build_xlsx_from_csv "C:/base" "C:/app" {} none "wb.xlsx" =
      Except.error "FileNotFoundError: os.makedirs with empty dirname" := rfl

/-- Claim C7 (corrected): if SMTP host, user, password or the recipient
list is missing — and the `SMTP_PORT` value (default "587") parses as an
integer — `send_email` performs no network action, emits the warning and
returns.  `SMTP_PORT` itself is not part of the guard: see
C7_counterexample. -/
theorem C7_theorem (cfg : Cfg) (fx : String → Bool) (subject body : String)
    (att : List String) (n : Int)
    (hport : pyInt (cfg.SMTP_PORT.getD "587") = some n)
    (hmiss : cfg.SMTP_HOST.getD "" = "" ∨ cfg.SMTP_USER.getD "" = "" ∨
      cfg.SMTP_PASS.getD "" = "" ∨ parseMailTo (cfg.MAIL_TO.getD "") = []) :
    send_email cfg fx subject body att = Except.ok MailOutcome.warnedSkip := by
  simp only [send_email, hport]
  rw [if_neg]
  rintro ⟨h1, h2, h3, h4⟩
  rcases hmiss with h | h | h | h
  · exact h1 h
  · exact h2 h
  · exact h3 h
  · exact h4 h

/-- Witness for C7_theorem: with every mail setting unset (in particular
MAIL_TO), `send_email` warns and skips. -/
theorem C7_witness :
    send_email ({} : Cfg) (fun _ => false) "s" "b" [] =
      Except.ok MailOutcome.warnedSkip :=
  C7_theorem {} (fun _ => false) "s" "b" [] 587 (by decide)
    (Or.inr (Or.inr (Or.inr (by decide))))

/-- Counterexample to claim C7 as stated: `SMTP_PORT` missing while host,
user, password and recipients are present does not suppress the network
action — the port silently defaults to 587 and the mail is sent. -/
theorem C7_counterexample :
    send_email
      { SMTP_HOST := some "smtp.x", SMTP_USER := some "u"
        SMTP_PASS := some "p", MAIL_TO := some "a@b.c" }
      (fun _ => false) "subj" "body" [] =
      Except.ok (MailOutcome.sent
        { host := "smtp.x", port := 587, user := "u", sender := "u"
          recipients := ["a@b.c"], subject := "subj", body := "body"
          attached := [] }) := rfl

/-- Claim C8 (confirmed): the publisher attempts stage, commit and push in
that fixed order, with `check=False` on each, so the attempted command
sequence is the same for every combination of exit statuses and the
function always completes. -/
theorem C8_theorem (cfg : Cfg) (exits : Nat → Int) (repo_dir message : String) :
    git_commit_and_push cfg exits repo_dir message = Except.ok
      [(repo_dir, ["git", "add", "-A"]),
       (repo_dir, ["git", "commit", "-m", message]),
       (repo_dir, ["git", "push", cfg.GIT_REMOTE_NAME.getD "origin",
         cfg.GIT_BRANCH.getD "main"])] := rfl

/-- Claim C9 (confirmed): `int(os.getenv("SMTP_PORT", "587"))` runs before
the configuration guard, so a set but non-integer `SMTP_PORT` (for example
the empty string) makes `send_email` raise no matter what else is set;
conversely whenever the port value parses, `send_email` returns normally —
no other configuration value can cause a hard failure. -/
theorem C9_theorem :
    (∀ (cfg : Cfg) (fx : String → Bool) (subject body : String)
        (att : List String) (s : String),
      cfg.SMTP_PORT = some s → pyInt s = none →
      send_email cfg fx subject body att =
        Except.error "ValueError: invalid literal for int() with base 10") ∧
    (∀ (cfg : Cfg) (fx : String → Bool) (subject body : String)
        (att : List String),
      pyInt (cfg.SMTP_PORT.getD "587") ≠ none →
      ∃ o, send_email cfg fx subject body att = Except.ok o) := by
  constructor
  · intro cfg fx subject body att s hset hbad
    simp [send_email, hset, hbad]
  · intro cfg fx subject body att hgood
    cases hcase : pyInt (cfg.SMTP_PORT.getD "587") with
    | none => exact absurd hcase hgood
    | some port =>
      simp only [send_email, hcase]
      split
      · exact ⟨_, rfl⟩
      · exact ⟨_, rfl⟩

/-- Witness for C9_theorem: `SMTP_PORT = ""` with every other mail setting
absent raises; a fully absent configuration (port defaults to 587) does
not. -/
theorem C9_witness :
    send_email { SMTP_PORT := some "" } (fun _ => false) "s" "b" [] =
      Except.error "ValueError: invalid literal for int() with base 10" ∧
    ∃ o, send_email ({} : Cfg) (fun _ => false) "s" "b" [] = Except.ok o :=
  ⟨C9_theorem.1 { SMTP_PORT := some "" } (fun _ => false) "s" "b" [] ""
      rfl (by decide),
   C9_theorem.2 {} (fun _ => false) "s" "b" [] (by decide)⟩

/-- Claim C10 (confirmed): both the exporter and the archiver call
`os.makedirs(os.path.dirname(out))` before touching any input, so a
bare-filename output path makes either raise with the same error for every
ledger and every screenshot tree. -/
theorem C10_theorem :
    (∀ (cwd here : String) (cfg : Cfg) (csvFile : Option Ledger) (xlsx : String),
      dirnameW xlsx = "" →
      build_xlsx_from_csv cwd here cfg csvFile xlsx =
        Except.error "FileNotFoundError: os.makedirs with empty dirname") ∧
    (∀ (today : Nat) (fs : ZipFS) (out : String),
      dirnameW out = "" →
      zip_last_7_days today fs out =
        Except.error "FileNotFoundError: os.makedirs with empty dirname") := by
  constructor
  · intro cwd here cfg csvFile xlsx h
    simp [build_xlsx_from_csv, h]
  · intro today fs out h
    simp [zip_last_7_days, h]

/-- Witness for C10_theorem at bare filenames, with a nonempty ledger and
a nonempty screenshot tree. -/
theorem C10_witness :
    build_xlsx_from_csv "C:/base" "C:/app" {}
        (some { fieldnames := ["image_path"]
                rows := [[("image_path", "C:/shots/a/f.png")]] }) "wb.xlsx" =
      Except.error "FileNotFoundError: os.makedirs with empty dirname" ∧
    zip_last_7_days (dateOrd (2025, 9, 19))
        [("gogo.mn", [("2025-09-18", ["x.png"])])] "z.zip" =
      Except.error "FileNotFoundError: os.makedirs with empty dirname" :=
  ⟨C10_theorem.1 "C:/base" "C:/app" {}
      (some { fieldnames := ["image_path"]
              rows := [[("image_path", "C:/shots/a/f.png")]] }) "wb.xlsx" (by decide),
   C10_theorem.2 (dateOrd (2025, 9, 19))
      [("gogo.mn", [("2025-09-18", ["x.png"])])] "z.zip" (by decide)⟩

theorem buildCellAt_ok (cwd here : String) (cfg : Cfg)
    (csvFile : Option Ledger) (xlsx : String) (sheet : Sheet) (r c : Nat)
    (hok : build_xlsx_from_csv cwd here cfg csvFile xlsx = Except.ok sheet) :
    buildCellAt cwd here cfg csvFile xlsx r c = cellAt sheet r c := by
  simp only [buildCellAt]
  rw [hok]

theorem cellAtConsSucc (t : String) (hd : List Cell) (tl : List (List Cell))
    (j c : Nat) :
    cellAt { title := t, rows := hd :: tl } (j + 1) c =
      (tl.get? j).bind (fun row => row.get? c) := rfl

theorem cellAtConsZero (t : String) (hd : List Cell) (tl : List (List Cell))
    (c : Nat) :
    cellAt { title := t, rows := hd :: tl } 0 c = hd.get? c := rfl

theorem optMapSome {α β : Type} (f : α → β) (a : α) :
    (some a).map f = some (f a) := rfl

theorem optBindSome {α β : Type} (a : α) (g : α → Option β) :
    (some a).bind g = g a := rfl

theorem buildCellAt_click (cwd here : String) (cfg : Cfg) (L : Ledger)
    (xlsx : String) (idx : Nat) (name : String) (j : Nat)
    (r : List (String × String))
    (hout : dirnameW xlsx ≠ "")
    (hfind : findClick L.fieldnames = some (idx, name))
    (hrow : L.rows.get? j = some r)
    (hp : rowGet r name ≠ "") :
    buildCellAt cwd here cfg (some L) xlsx (j + 1) (idx - 1) =
      some (mkClickCell
        (displayFor cwd (guessOutputRoot cwd here cfg) (rowGet r name))
        (linkFor cwd
          (deriveRawBase (rstripSlash (cfg.RAW_BASE_URL.getD ""))
            (rstripSlash (cfg.PUBLIC_BASE_URL.getD "")))
          (rstripSlash (cfg.PUBLIC_BASE_URL.getD ""))
          (rowGet r name)
          (toRel cwd (rowGet r name) (guessOutputRoot cwd here cfg)))) := by
  obtain ⟨i, hi, hidx⟩ := findClick_spec L.fieldnames idx name hfind
  rw [buildCellAt_ok cwd here cfg (some L) xlsx _ (j + 1) (idx - 1)
    (build_rows_eq cwd here cfg L xlsx hout)]
  rw [cellAtConsSucc, listGetMap, hrow, optMapSome, optBindSome, hfind]
  exact processRow_click cwd (guessOutputRoot cwd here cfg) _ _ L.fieldnames
    idx name r i hi hidx hp

theorem buildCellAt_plain (cwd here : String) (cfg : Cfg) (L : Ledger)
    (xlsx : String) (idx k : Nat) (name colName : String) (j : Nat)
    (r : List (String × String))
    (hout : dirnameW xlsx ≠ "")
    (hfind : findClick L.fieldnames = some (idx, name))
    (hrow : L.rows.get? j = some r)
    (hcol : L.fieldnames.get? k = some colName)
    (hk : k + 1 ≠ idx) :
    buildCellAt cwd here cfg (some L) xlsx (j + 1) k =
      some (plainCell (rowGet r colName)) := by
  obtain ⟨i, hi, hidx⟩ := findClick_spec L.fieldnames idx name hfind
  have hk2 : idx - 1 ≠ k := by omega
  rw [buildCellAt_ok cwd here cfg (some L) xlsx _ (j + 1) k
    (build_rows_eq cwd here cfg L xlsx hout)]
  rw [cellAtConsSucc, listGetMap, hrow, optMapSome, optBindSome, hfind,
    processRow_other _ _ _ _ L.fieldnames idx name r k hk2, hcol]
  rfl

theorem buildCellAt_header (cwd here : String) (cfg : Cfg) (L : Ledger)
    (xlsx : String) (k : Nat) (colName : String)
    (hout : dirnameW xlsx ≠ "")
    (hcol : L.fieldnames.get? k = some colName) :
    buildCellAt cwd here cfg (some L) xlsx 0 k = some (plainCell colName) := by
  rw [buildCellAt_ok cwd here cfg (some L) xlsx _ 0 k
    (build_rows_eq cwd here cfg L xlsx hout)]
  rw [cellAtConsZero, listGetMap, hcol]
  rfl

theorem buildCellAt_past (cwd here : String) (cfg : Cfg) (L : Ledger)
    (xlsx : String) (j : Nat) (r : List (String × String))
    (hout : dirnameW xlsx ≠ "")
    (hrow : L.rows.get? j = some r) :
    buildCellAt cwd here cfg (some L) xlsx 0 L.fieldnames.length = none ∧
    buildCellAt cwd here cfg (some L) xlsx (j + 1) L.fieldnames.length = none := by
  constructor
  · rw [buildCellAt_ok cwd here cfg (some L) xlsx _ 0 L.fieldnames.length
      (build_rows_eq cwd here cfg L xlsx hout)]
    rw [cellAtConsZero]
    exact listGetNone _ _ (Nat.le_of_eq (List.length_map _ _))
  · rw [buildCellAt_ok cwd here cfg (some L) xlsx _ (j + 1) L.fieldnames.length
      (build_rows_eq cwd here cfg L xlsx hout)]
    rw [cellAtConsSucc, listGetMap, hrow, optMapSome, optBindSome]
    exact listGetNone _ _ (Nat.le_of_eq (processRow_length _ _ _ _ _ _ _))

theorem bindHyperlink (c : Cell) :
    (some c).bind Cell.hyperlink = c.hyperlink := rfl

theorem mkClickCell_hyperlink (d l : String) (hl : l ≠ "") :
    (mkClickCell d l).hyperlink = some l := by
  simp only [mkClickCell]
  rw [if_neg hl]

theorem linkFor_raw (cwd raw pub p rel : String) (hraw : raw ≠ "")
    (hrel : rel ≠ "") :
    linkFor cwd raw pub p rel = rstripSlash raw ++ "/" ++ lstripSlash rel := by
  simp only [linkFor]
  rw [if_pos ⟨hraw, hrel⟩]

theorem linkFor_pub (cwd raw pub p rel : String) (hraw : raw = "")
    (hpub : pub ≠ "") (hrel : rel ≠ "") :
    linkFor cwd raw pub p rel = rstripSlash pub ++ "/" ++ lstripSlash rel := by
  simp only [linkFor]
  rw [if_neg (fun hc => hc.1 hraw), if_pos ⟨hpub, hrel⟩]

theorem linkFor_file (cwd raw pub p rel : String) (hrel : rel = "") :
    linkFor cwd raw pub p rel = fileUrl cwd p := by
  simp only [linkFor]
  rw [if_neg (fun hc => hc.2 hrel), if_neg (fun hc => hc.2 hrel)]

/-- Claim C1 (corrected): the clickable cell's displayed text is the
`os.path.relpath` result whenever that computation succeeds — including a
`..`-relative path for rows outside `OUTPUT_ROOT` — and falls back to the
path's base name exactly when the relative-path computation fails (for
example a path on a different drive); it is never the raw original value
when either of those are available.  Columns other than the clickable one
are written verbatim, so a second path column can still display an
absolute path (see C1_counterexample). -/
theorem C1_theorem (cwd here : String) (cfg : Cfg) (L : Ledger) (xlsx : String)
    (idx : Nat) (name : String) (j : Nat) (r : List (String × String))
    (hout : dirnameW xlsx ≠ "")
    (hfind : findClick L.fieldnames = some (idx, name))
    (hrow : L.rows.get? j = some r)
    (hp : rowGet r name ≠ "") :
    (buildCellAt cwd here cfg (some L) xlsx (j + 1) (idx - 1)).map Cell.value =
      some (displayFor cwd (guessOutputRoot cwd here cfg) (rowGet r name)) ∧
    (toRel cwd (rowGet r name) (guessOutputRoot cwd here cfg) = "" →
      (buildCellAt cwd here cfg (some L) xlsx (j + 1) (idx - 1)).map Cell.value =
        some (basenameW (rowGet r name))) ∧
    (toRel cwd (rowGet r name) (guessOutputRoot cwd here cfg) ≠ "" →
      (buildCellAt cwd here cfg (some L) xlsx (j + 1) (idx - 1)).map Cell.value =
        some (toRel cwd (rowGet r name) (guessOutputRoot cwd here cfg))) := by
  have h := buildCellAt_click cwd here cfg L xlsx idx name j r hout hfind hrow hp
  refine ⟨by rw [h]; rfl, ?_, ?_⟩
  · intro h0
    rw [h]
    show some (displayFor cwd (guessOutputRoot cwd here cfg) (rowGet r name)) =
      some (basenameW (rowGet r name))
    simp only [displayFor]
    rw [if_pos h0]
  · intro h0
    rw [h]
    show some (displayFor cwd (guessOutputRoot cwd here cfg) (rowGet r name)) =
      some (toRel cwd (rowGet r name) (guessOutputRoot cwd here cfg))
    simp only [displayFor]
    rw [if_neg h0]

/-- Witness for C1_theorem: a row whose path lies outside `OUTPUT_ROOT`
(but on the same drive) displays the `..`-relative path. -/
theorem C1_witness :
    (buildCellAt "C:/base" "C:/app" { OUTPUT_ROOT := some "C:/shots" }
        (some { fieldnames := ["example_path", "image_path"]
                rows := [[("example_path", "C:/other/f.png"),
                          ("image_path", "C:/other/f.png")]] })
        "C:/out/wb.xlsx" 1 0).map Cell.value = some "../other/f.png" :=
  ( C1_theorem "C:/base" "C:/app" { OUTPUT_ROOT := some "C:/shots" }
    { fieldnames := ["example_path", "image_path"]
      rows := [[("example_path", "C:/other/f.png"),
                ("image_path", "C:/other/f.png")]] }
    "C:/out/wb.xlsx" 1 "example_path" 0
    [("example_path", "C:/other/f.png"), ("image_path", "C:/other/f.png")]
    (by decide) (by decide) rfl (by decide)).1

/-- Counterexample to claim C1 as stated: for a row whose path value
`C:/other/f.png` lies outside `OUTPUT_ROOT = C:/shots`, the clickable cell
displays `../other/f.png` — the relative path, not the base name `f.png` —
and the verbatim `image_path` column still displays the absolute local
path. -/
theorem C1_counterexample :
    build_xlsx_from_csv "C:/base" "C:/app" { OUTPUT_ROOT := some "C:/shots" }
      (some { fieldnames := ["example_path", "image_path"]
              rows := [[("example_path", "C:/other/f.png"),
                        ("image_path", "C:/other/f.png")]] })
      "C:/out/wb.xlsx" =
      Except.ok
        { title := "banners"
          rows := [[plainCell "example_path", plainCell "image_path"],
                 [{ value := "../other/f.png"
                    hyperlink := some "file:///C:/other/f.png"
                    style := some "Hyperlink" },
                  plainCell "C:/other/f.png"]] } ∧
    "../other/f.png" ≠ "f.png" ∧
    basenameW "C:/other/f.png" = "f.png" :=
  ⟨rfl, by decide, by decide⟩

/-- Claim C2 (corrected): the hyperlink follows the fixed priority raw
base, then public base, then `file://` — but the raw and public bases are
only used when the relative-path computation succeeds.  When it fails
(e.g. a path on a different drive than `OUTPUT_ROOT`), the `file://`
fallback is used even with both `RAW_BASE_URL` and `PUBLIC_BASE_URL` set
(see C2_counterexample). -/
theorem C2_theorem (cwd here : String) (cfg : Cfg) (L : Ledger) (xlsx : String)
    (idx : Nat) (name : String) (j : Nat) (r : List (String × String))
    (hout : dirnameW xlsx ≠ "")
    (hfind : findClick L.fieldnames = some (idx, name))
    (hrow : L.rows.get? j = some r)
    (hp : rowGet r name ≠ "") :
    ((deriveRawBase (rstripSlash (cfg.RAW_BASE_URL.getD ""))
        (rstripSlash (cfg.PUBLIC_BASE_URL.getD "")) ≠ "" ∧
      toRel cwd (rowGet r name) (guessOutputRoot cwd here cfg) ≠ "") →
      (buildCellAt cwd here cfg (some L) xlsx (j + 1) (idx - 1)).bind
          Cell.hyperlink =
        some (rstripSlash (deriveRawBase (rstripSlash (cfg.RAW_BASE_URL.getD ""))
            (rstripSlash (cfg.PUBLIC_BASE_URL.getD ""))) ++ "/" ++
          lstripSlash (toRel cwd (rowGet r name) (guessOutputRoot cwd here cfg)))) ∧
    ((deriveRawBase (rstripSlash (cfg.RAW_BASE_URL.getD ""))
        (rstripSlash (cfg.PUBLIC_BASE_URL.getD "")) = "" ∧
      rstripSlash (cfg.PUBLIC_BASE_URL.getD "") ≠ "" ∧
      toRel cwd (rowGet r name) (guessOutputRoot cwd here cfg) ≠ "") →
      (buildCellAt cwd here cfg (some L) xlsx (j + 1) (idx - 1)).bind
          Cell.hyperlink =
        some (rstripSlash (rstripSlash (cfg.PUBLIC_BASE_URL.getD "")) ++ "/" ++
          lstripSlash (toRel cwd (rowGet r name) (guessOutputRoot cwd here cfg)))) ∧
    (toRel cwd (rowGet r name) (guessOutputRoot cwd here cfg) = "" →
      (buildCellAt cwd here cfg (some L) xlsx (j + 1) (idx - 1)).bind
          Cell.hyperlink =
        some (fileUrl cwd (rowGet r name))) := by
  have h := buildCellAt_click cwd here cfg L xlsx idx name j r hout hfind hrow hp
  refine ⟨?_, ?_, ?_⟩
  · rintro ⟨hraw, hrel⟩
    rw [h, bindHyperlink, linkFor_raw _ _ _ _ _ hraw hrel,
      mkClickCell_hyperlink _ _ (midSlashNe _ _)]
  · rintro ⟨hraw0, hpub, hrel⟩
    rw [h, bindHyperlink, linkFor_pub _ _ _ _ _ hraw0 hpub hrel,
      mkClickCell_hyperlink _ _ (midSlashNe _ _)]
  · intro hrel0
    rw [h, bindHyperlink, linkFor_file _ _ _ _ _ hrel0,
      mkClickCell_hyperlink _ _ (fileUrlNe _ _)]

/-- Witness for C2_theorem: both bases set and a row inside `OUTPUT_ROOT`
gets the raw-base hyperlink. -/
theorem C2_witness :
    (buildCellAt "C:/base" "C:/app"
        { OUTPUT_ROOT := some "C:/shots", RAW_BASE_URL := some "https://raw.base"
          PUBLIC_BASE_URL := some "https://pub.base" }
        (some { fieldnames := ["site", "example_path"]
                rows := [[("site", "gogo.mn"),
                          ("example_path", "C:/shots/news.mn/f.png")]] })
        "C:/out/wb.xlsx" 1 1).bind Cell.hyperlink =
      some "https://raw.base/news.mn/f.png" :=
  ( C2_theorem "C:/base" "C:/app"
    { OUTPUT_ROOT := some "C:/shots", RAW_BASE_URL := some "https://raw.base"
      PUBLIC_BASE_URL := some "https://pub.base" }
    { fieldnames := ["site", "example_path"]
      rows := [[("site", "gogo.mn"), ("example_path", "C:/shots/news.mn/f.png")]] }
    "C:/out/wb.xlsx" 2 "example_path" 0
    [("site", "gogo.mn"), ("example_path", "C:/shots/news.mn/f.png")]
    (by decide) (by decide) rfl (by decide)).1 ⟨by decide, by decide⟩

/-- Counterexample to claim C2 as stated: with both `RAW_BASE_URL` and
`PUBLIC_BASE_URL` set, a row whose path sits on drive `D:` while
`OUTPUT_ROOT` is on `C:` gets a `file://` hyperlink to the local absolute
path, not a raw-base hyperlink. -/
theorem C2_counterexample :
    build_xlsx_from_csv "C:/base" "C:/app"
      { OUTPUT_ROOT := some "C:/shots", RAW_BASE_URL := some "https://raw.base"
        PUBLIC_BASE_URL := some "https://pub.base" }
      (some { fieldnames := ["site", "example_path"]
              rows := [[("site", "gogo.mn"), ("example_path", "D:/pics/f.png")]] })
      "C:/out/wb.xlsx" =
      Except.ok
        { title := "banners"
          rows := [[plainCell "site", plainCell "example_path"],
                 [plainCell "gogo.mn",
                  { value := "f.png"
                    hyperlink := some "file:///D:/pics/f.png"
                    style := some "Hyperlink" }]] } ∧
    startsW "file:///D:/pics/f.png" "https://raw.base" = false :=
  ⟨rfl, by decide⟩

/-- Claim C3 (corrected): the workbook's column set equals the input
ledger's columns unchanged — the path-identifying column is kept and no
synthetic trailing "open" column is added (columns beyond the input header
do not exist) — non-path values are written verbatim, and the hyperlink is
attached to the existing path column cell, whose display text is the
per-row relative path rather than a fixed literal label. -/
theorem C3_theorem (cwd here : String) (cfg : Cfg) (L : Ledger) (xlsx : String)
    (idx k : Nat) (name colName : String) (j : Nat)
    (r : List (String × String))
    (hout : dirnameW xlsx ≠ "")
    (hfind : findClick L.fieldnames = some (idx, name))
    (hrow : L.rows.get? j = some r)
    (hcol : L.fieldnames.get? k = some colName)
    (hk : k + 1 ≠ idx) :
    buildCellAt cwd here cfg (some L) xlsx 0 k = some (plainCell colName) ∧
    buildCellAt cwd here cfg (some L) xlsx (j + 1) k =
      some (plainCell (rowGet r colName)) ∧
    buildCellAt cwd here cfg (some L) xlsx 0 L.fieldnames.length = none ∧
    buildCellAt cwd here cfg (some L) xlsx (j + 1) L.fieldnames.length = none := by
  refine ⟨buildCellAt_header cwd here cfg L xlsx k colName hout hcol,
    buildCellAt_plain cwd here cfg L xlsx idx k name colName j r
      hout hfind hrow hcol hk,
    (buildCellAt_past cwd here cfg L xlsx j r hout hrow).1,
    (buildCellAt_past cwd here cfg L xlsx j r hout hrow).2⟩

/-- Witness for C3_theorem: the `site` column of a concrete ledger is
written verbatim in header and data rows, and there is no column beyond
the input header (no synthetic trailing column). -/
theorem C3_witness :
    buildCellAt "C:/base" "C:/app" { OUTPUT_ROOT := some "C:/shots" }
        (some { fieldnames := ["site", "image_path"]
                rows := [[("site", "gogo.mn"),
                          ("image_path", "C:/shots/a/f1.png")]] })
        "C:/out/wb.xlsx" 0 0 = some (plainCell "site") ∧
    buildCellAt "C:/base" "C:/app" { OUTPUT_ROOT := some "C:/shots" }
        (some { fieldnames := ["site", "image_path"]
                rows := [[("site", "gogo.mn"),
                          ("image_path", "C:/shots/a/f1.png")]] })
        "C:/out/wb.xlsx" 1 0 = some (plainCell "gogo.mn") ∧
    buildCellAt "C:/base" "C:/app" { OUTPUT_ROOT := some "C:/shots" }
        (some { fieldnames := ["site", "image_path"]
                rows := [[("site", "gogo.mn"),
                          ("image_path", "C:/shots/a/f1.png")]] })
        "C:/out/wb.xlsx" 0 2 = none ∧
    buildCellAt "C:/base" "C:/app" { OUTPUT_ROOT := some "C:/shots" }
        (some { fieldnames := ["site", "image_path"]
                rows := [[("site", "gogo.mn"),
                          ("image_path", "C:/shots/a/f1.png")]] })
        "C:/out/wb.xlsx" 1 2 = none :=
  C3_theorem "C:/base" "C:/app" { OUTPUT_ROOT := some "C:/shots" }
    { fieldnames := ["site", "image_path"]
      rows := [[("site", "gogo.mn"), ("image_path", "C:/shots/a/f1.png")]] }
    "C:/out/wb.xlsx" 2 0 "image_path" "site" 0
    [("site", "gogo.mn"), ("image_path", "C:/shots/a/f1.png")]
    (by decide) (by decide) rfl rfl (by decide)

/-- Counterexample to claim C3 as stated: the exported header still
contains the path-identifying column `image_path` (nothing is removed, no
"open" column is appended), and the link-bearing cells of two different
rows display two different texts (`a/f1.png` vs `a/f2.png`), so no fixed
literal display label is written. -/
theorem C3_counterexample :
    build_xlsx_from_csv "C:/base" "C:/app" { OUTPUT_ROOT := some "C:/shots" }
      (some { fieldnames := ["site", "image_path"]
              rows := [[("site", "gogo.mn"), ("image_path", "C:/shots/a/f1.png")],
                       [("site", "news.mn"), ("image_path", "C:/shots/a/f2.png")]] })
      "C:/out/wb.xlsx" =
      Except.ok
        { title := "banners"
          rows := [[plainCell "site", plainCell "image_path"],
                 [plainCell "gogo.mn",
                  { value := "a/f1.png"
                    hyperlink := some "file:///C:/shots/a/f1.png"
                    style := some "Hyperlink" }],
                 [plainCell "news.mn",
                  { value := "a/f2.png"
                    hyperlink := some "file:///C:/shots/a/f2.png"
                    style := some "Hyperlink" }]] } ∧
    "a/f1.png" ≠ "a/f2.png" :=
  ⟨rfl, by decide⟩

end Shipping
